import Mathlib

/-!
Shallow embedding of the Crawly scraping pipeline (DONALDBZR/Crawly).

The embedding follows the Python sources:
* `src/Errors/Scraper.py` — `Scraper_Exception` (message + numeric code);
* `src/Models/ScraperStrategy.py` — the strategy contract and its default
  `should_retry`;
* `src/Models/ScraperOrchestrator.py` — the orchestrator: the strict
  (name-mangled) log helpers, the recursive `_get_data` retry loop, the
  defensive `_log_debug`/`_log_error`, `_validate_data`, the envelope
  builders `_success_response`/`_error_response`, and `run`;
* `src/Strategies/MnsHtmlScraperStrategy.py` — `_generate_entity_id` and
  `normalize` (with a full SHA-256 implementation over bytes as `Nat`).

Python exceptions are modelled with `Except`; an exception value is either a
`Scraper_Exception` (the only class the orchestrator catches selectively) or
any other exception identified by its class name (`NameError`,
`UnboundLocalError`, logger failures, ...).  Evaluation of an unbound local
variable is modelled at the precise program point where CPython would raise.
Side effects that the claims observe (fetch invocations, `sleep` calls with
their delays, extract/normalize invocations) are returned as an explicit
trace.  Wall-clock timestamps are threaded as an explicit `now` argument;
`backoff_base_seconds` is modelled as a rational number (multiplication of an
IEEE double by a power of two is exact, so the backoff formula transfers
faithfully).
-/

namespace Crawly

/-- Scraper_Exception from `src/Errors/Scraper.py`: an error message and a
numeric code (default 500).  The `file`/`line`/`trace` diagnostics are pure
metadata never consulted by the orchestrator and are omitted. -/
structure Scraper_Exception where
  message : String
  code : Int
deriving Repr, DecidableEq

/-- A Python exception value as the orchestrator can observe it: either a
`Scraper_Exception` (caught selectively by `_get_data` and `run`) or any
other `Exception` subclass, identified by its class name and message. -/
inductive PyExc where
  | scraper (e : Scraper_Exception)
  | other (typeName : String) (msg : String)
deriving Repr, DecidableEq

/-- Modelled from the spec: the optional Logger collaborator
(`Models/Logger.py`, class `Crawly_Logger`, is not among the sources).  Per
§6 of the spec it is a capability with `debug`, `inform` and `error`
operations.  Each `has*` flag models `hasattr`; each `*Exc` field gives the
exception a call of that operation raises (`none` = the call returns
normally). -/
structure Crawly_Logger where
  hasDebug : Bool
  hasInform : Bool
  hasError : Bool
  debugExc : Option PyExc
  informExc : Option PyExc
  errorExc : Option PyExc
deriving Repr, DecidableEq

/-- The strategy contract of `src/Models/ScraperStrategy.py`, as the
orchestrator consumes it.  `Ctx` is the caller-supplied context type, `E` the
extracted-fields type, `N` the normalized-record type.  `fetch` additionally
receives the index of the call (the orchestrator's `attempts` value at the
call site), modelling a side-effecting fetch whose outcome may differ from
call to call; it may return `none` because a mocked/buggy fetch can return
Python `None` despite the `str` annotation.  Failures are `Except.error`. -/
structure Scraper_Strategy (Ctx E N : Type) where
  identifier : String
  fetch : Ctx → Nat → Except PyExc (Option String)
  extract : String → Except PyExc E
  normalize : E → Except PyExc N
  should_retry : Scraper_Exception → Nat → Bool

/-- Default `Scraper_Strategy.should_retry` (src/Models/ScraperStrategy.py,
lines 69-80): `return attempt < 3`, ignoring the exception entirely.  The
attempt number is a Python int. -/
def should_retry_default (_exception : PyExc) (attempt : Int) : Bool :=
  attempt < 3

/-- The orchestrator state set up by `Scraper_Orchestrator.__init__`: the
strategy is passed separately to the operations (it is type-parametric). -/
structure Scraper_Orchestrator where
  _max_attempts : Int
  _backoff_base : ℚ
  _logger : Option Crawly_Logger
deriving Repr, DecidableEq

/-- Strict debug logging (`__log_debug`, lines 54-74): raises a
`Scraper_Exception` when no logger is configured or the logger lacks the
`debug` attribute; otherwise performs `logger.debug`, which may itself
raise.  Result `none` means the call returned normally. -/
def log_debug_strict (o : Scraper_Orchestrator) : Option PyExc :=
  match o._logger with
  | some lg =>
    if lg.hasDebug then lg.debugExc
    else some (.scraper ⟨"Logger is not properly configured for debug logging.", 500⟩)
  | none => some (.scraper ⟨"Logger is not properly configured for debug logging.", 500⟩)

/-- Strict info logging (`__log_info`, lines 76-96). -/
def log_info_strict (o : Scraper_Orchestrator) : Option PyExc :=
  match o._logger with
  | some lg =>
    if lg.hasInform then lg.informExc
    else some (.scraper ⟨"Logger is not properly configured for informative logging.", 500⟩)
  | none => some (.scraper ⟨"Logger is not properly configured for informative logging.", 500⟩)

/-- Strict error logging (`__log_error`, lines 98-118). -/
def log_error_strict (o : Scraper_Orchestrator) : Option PyExc :=
  match o._logger with
  | some lg =>
    if lg.hasError then lg.errorExc
    else some (.scraper ⟨"Logger is not properly configured for error logging.", 500⟩)
  | none => some (.scraper ⟨"Logger is not properly configured for error logging.", 500⟩)

instance {ε α : Type} [DecidableEq ε] [DecidableEq α] : DecidableEq (Except ε α) := fun a b =>
  match a, b with
  | .ok a, .ok b => decidable_of_iff (a = b) (by simp)
  | .ok _, .error _ => isFalse (by simp)
  | .error _, .ok _ => isFalse (by simp)
  | .error e, .error f => decidable_of_iff (e = f) (by simp)

/-- Observable trace of one `_get_data` invocation: its outcome (the fetched
payload, or the exception it raises), how many times `strategy.fetch` was
invoked, and the list of delays passed to `sleep`, in order. -/
structure Fetch_Trace where
  result : Except PyExc (Option String)
  fetch_calls : Nat
  sleeps : List ℚ
deriving Repr, DecidableEq

/-- The message of the terminal exception `_get_data` raises when no more
retries are allowed (line 152). -/
def no_retry_message (error : Scraper_Exception) (attempts : Nat) : String :=
  "The data cannot be scraped and no more retries are allowed. - Error: "
    ++ error.message ++ " | Status: " ++ toString error.code
    ++ " | Attempts: " ++ toString attempts

/-- The `try` block of `_get_data` (lines 140-144): `__log_debug`, then
`strategy.fetch(context)`, then `__log_info`, then return the response.  The
first exception aborts the block.  The second component counts the fetch
calls performed inside the block (0 or 1). -/
def _get_data_try {Ctx E N : Type} (o : Scraper_Orchestrator)
    (s : Scraper_Strategy Ctx E N) (context : Ctx) (attempts : Nat) :
    Except PyExc (Option String) × Nat :=
  match log_debug_strict o with
  | some e => (.error e, 0)
  | none =>
    match s.fetch context attempts with
    | .error e => (.error e, 1)
    | .ok response =>
      match log_info_strict o with
      | some e => (.error e, 1)
      | none => (.ok response, 1)

/-- Recursive fetch helper `_get_data` (lines 120-153).  Only a
`Scraper_Exception` from the `try` block is caught; the handler increments
`attempts`, calls `__log_error` (whose own exception propagates), computes
`is_allowed = should_retry(error, attempts) and attempts < max_attempts`,
computes `delay = backoff_base * 2 ** attempts`, ALWAYS sleeps that delay,
then either raises the terminal exception or recurses with the incremented
counter. -/
def _get_data {Ctx E N : Type} (o : Scraper_Orchestrator)
    (s : Scraper_Strategy Ctx E N) (context : Ctx) (attempts : Nat) :
    Fetch_Trace :=
  match _get_data_try o s context attempts with
  | (.ok response, n) => ⟨.ok response, n, []⟩
  | (.error (.other t m), n) => ⟨.error (.other t m), n, []⟩
  | (.error (.scraper error), n) =>
    match log_error_strict o with
    | some e2 => ⟨.error e2, n, []⟩
    | none =>
      let delay := o._backoff_base * 2 ^ (attempts + 1)
      if h : s.should_retry error (attempts + 1)
          && decide ((attempts : Int) + 1 < o._max_attempts) then
        let rest := _get_data o s context (attempts + 1)
        ⟨rest.result, n + rest.fetch_calls, delay :: rest.sleeps⟩
      else
        ⟨.error (.scraper ⟨no_retry_message error (attempts + 1), 500⟩), n, [delay]⟩
termination_by (o._max_attempts - attempts).toNat
decreasing_by
  simp only [Bool.and_eq_true, decide_eq_true_eq] at h
  omega

/-- Validation helper `_validate_data` (lines 155-174).  It rejects only a
`None` payload; note that `run` never calls it.  Result `none` means the
check passed. -/
def _validate_data (data : Option String) : Option PyExc :=
  match data with
  | some _ => none
  | none => some (.scraper ⟨"Fetched data is None.", 404⟩)

/-- Error payload built by `_error_response` (lines 219-225) for a non-None
error: stage code, `str(error)`, and the exception class name. -/
structure Error_Payload where
  code : String
  message : String
  type : String
deriving Repr, DecidableEq

/-- Python `str(error)`: for `Scraper_Exception(message)` this is the
message; for other exceptions their message. -/
def pyStr : PyExc → String
  | .scraper e => e.message
  | .other _ m => m

/-- Python `error.__class__.__name__`. -/
def pyTypeName : PyExc → String
  | .scraper _ => "Scraper_Exception"
  | .other t _ => t

/-- Response envelope (`_meta` plus `data`/`error`, lines 201-230), with the
metadata fields inlined.  `now` stands for the wall-clock ISO timestamp. -/
structure Envelope (N : Type) where
  meta_strategy : String
  meta_status : String
  meta_attempts : Int
  meta_timestamp : String
  data : Option N
  error : Option Error_Payload
deriving DecidableEq

/-- Envelope builder `_success_response` (lines 209-214). -/
def _success_response {N : Type} (identifier now : String) (data : N)
    (attempts : Int) : Envelope N :=
  ⟨identifier, "success", attempts, now, some data, none⟩

/-- Envelope builder `_error_response` (lines 216-230): when the passed
exception is `None` the `error` field of the envelope is also `None`. -/
def _error_response (N : Type) (identifier now code : String)
    (error : Option PyExc) (attempts : Int) : Envelope N :=
  ⟨identifier, "error", attempts, now, none,
    match error with
    | none => none
    | some e => some ⟨code, pyStr e, pyTypeName e⟩⟩

/-- Observable outcome of one `run` invocation: the returned envelope or the
exception escaping `run`, plus the observed side effects. -/
structure Run_Trace (N : Type) where
  result : Except PyExc (Envelope N)
  fetch_calls : Nat
  sleeps : List ℚ
  extract_calls : Nat
  normalize_calls : Nat
deriving DecidableEq

/-- The exception CPython raises when `run` evaluates its local name
`attempts`, which is never assigned anywhere in `run` (lines 184, 190, 196
and 197 all reference it). -/
def attempts_name_error : PyExc :=
  .other "NameError" "name attempts is not defined"

/-- The exception CPython raises at `if data is None` (line 183) when
`_get_data` raised and the `except Scraper_Exception: pass` handler left the
local `data` unassigned. -/
def data_unbound_error : PyExc :=
  .other "UnboundLocalError" "local variable data referenced before assignment"

/-- Orchestrator `run` (lines 176-197), modelled faithfully including its
unbound locals:
* `_get_data` raising a `Scraper_Exception` is caught and discarded
  (`pass`), after which `if data is None` raises `UnboundLocalError`;
* any other exception from `_get_data` propagates out of `run` unwrapped;
* on every path that builds a response (`_error_response` at lines 184 and
  190, also line 196, and `_success_response` at line 197) the argument
  `attempts` is an undefined name, so `run` raises `NameError` instead of
  returning the envelope;
* the defensive `_log_debug`/`_log_error` helpers (lines 232-244) swallow
  all logger failures and have no observable effect, so they are elided. -/
def run {Ctx E N : Type} (o : Scraper_Orchestrator)
    (s : Scraper_Strategy Ctx E N) (context : Ctx) : Run_Trace N :=
  let g := _get_data o s context 0
  match g.result with
  | .error (.scraper _) => ⟨.error data_unbound_error, g.fetch_calls, g.sleeps, 0, 0⟩
  | .error (.other t m) => ⟨.error (.other t m), g.fetch_calls, g.sleeps, 0, 0⟩
  | .ok none => ⟨.error attempts_name_error, g.fetch_calls, g.sleeps, 0, 0⟩
  | .ok (some data) =>
    match s.extract data with
    | .error _ => ⟨.error attempts_name_error, g.fetch_calls, g.sleeps, 1, 0⟩
    | .ok extracted =>
      match s.normalize extracted with
      | .error _ => ⟨.error attempts_name_error, g.fetch_calls, g.sleeps, 1, 1⟩
      | .ok _ => ⟨.error attempts_name_error, g.fetch_calls, g.sleeps, 1, 1⟩

/-! SHA-256 over byte lists (bytes and 32-bit words as `Nat`, overflow via
`% 2 ^ 32`), used by `MnsHtmlScraperStrategy._generate_entity_id`. -/

namespace SHA256

/-- Right rotation of a 32-bit word. -/
def rotr (n x : Nat) : Nat := ((x >>> n) ||| (x <<< (32 - n))) % 2 ^ 32

/-- The 64 round constants (FIPS 180-4, written in decimal). -/
def K : List Nat :=
  [1116352408, 1899447441, 3049323471, 3921009573, 961987163, 1508970993,
   2453635748, 2870763221, 3624381080, 310598401, 607225278, 1426881987,
   1925078388, 2162078206, 2614888103, 3248222580, 3835390401, 4022224774,
   264347078, 604807628, 770255983, 1249150122, 1555081692, 1996064986,
   2554220882, 2821834349, 2952996808, 3210313671, 3336571891, 3584528711,
   113926993, 338241895, 666307205, 773529912, 1294757372, 1396182291,
   1695183700, 1986661051, 2177026350, 2456956037, 2730485921, 2820302411,
   3259730800, 3345764771, 3516065817, 3600352804, 4094571909, 275423344,
   430227734, 506948616, 659060556, 883997877, 958139571, 1322822218,
   1537002063, 1747873779, 1955562222, 2024104815, 2227730452, 2361852424,
   2428436474, 2756734187, 3204031479, 3329325298]

/-- Working state: eight 32-bit words. -/
structure HState where
  a : Nat
  b : Nat
  c : Nat
  d : Nat
  e : Nat
  f : Nat
  g : Nat
  hh : Nat
deriving Repr, DecidableEq

/-- Initial hash state (FIPS 180-4, written in decimal). -/
def initState : HState :=
  ⟨1779033703, 3144134277, 1013904242, 2773480762, 1359893119, 2600822924, 528734635, 1541459225⟩

/-- Message padding: append `0x80`, zero bytes to 56 mod 64, and the bit
length as 8 big-endian bytes. -/
def pad (msg : List Nat) : List Nat :=
  let len := msg.length
  let zeros := (119 - len % 64) % 64
  msg ++ [0x80] ++ List.replicate zeros 0
    ++ (List.range 8).map (fun i => ((8 * len) >>> (8 * (7 - i))) % 256)

/-- Grouping bytes into big-endian 32-bit words. -/
def toWords : List Nat → List Nat
  | a :: b :: c :: d :: rest => (((a * 256 + b) * 256 + c) * 256 + d) :: toWords rest
  | _ => []

/-- Splitting the word list into 16-word blocks. -/
def blocks (l : List Nat) : List (List Nat) :=
  if h : l = [] then [] else l.take 16 :: blocks (l.drop 16)
termination_by l.length
decreasing_by
  have hl : 0 < l.length := List.length_pos.mpr h
  simp only [List.length_drop]
  omega

def smallSigma0 (x : Nat) : Nat := rotr 7 x ^^^ rotr 18 x ^^^ (x >>> 3)

def smallSigma1 (x : Nat) : Nat := rotr 17 x ^^^ rotr 19 x ^^^ (x >>> 10)

/-- Extending the 16-word block to the 64-word message schedule. -/
def extendSchedule (ws : List Nat) : List Nat :=
  (List.range 48).foldl (fun acc _ =>
    let n := acc.length
    let s0 := smallSigma0 (acc.getD (n - 15) 0)
    let s1 := smallSigma1 (acc.getD (n - 2) 0)
    acc ++ [(acc.getD (n - 16) 0 + s0 + acc.getD (n - 7) 0 + s1) % 2 ^ 32]) ws

/-- One compression round with the pair (round constant, schedule word). -/
def round (st : HState) (kw : Nat × Nat) : HState :=
  let S1 := rotr 6 st.e ^^^ rotr 11 st.e ^^^ rotr 25 st.e
  let ch := (st.e &&& st.f) ^^^ ((st.e ^^^ (2 ^ 32 - 1)) &&& st.g)
  let temp1 := (st.hh + S1 + ch + kw.1 + kw.2) % 2 ^ 32
  let S0 := rotr 2 st.a ^^^ rotr 13 st.a ^^^ rotr 22 st.a
  let maj := (st.a &&& st.b) ^^^ (st.a &&& st.c) ^^^ (st.b &&& st.c)
  let temp2 := (S0 + maj) % 2 ^ 32
  ⟨(temp1 + temp2) % 2 ^ 32, st.a, st.b, st.c, (st.d + temp1) % 2 ^ 32, st.e, st.f, st.g⟩

/-- Compressing one 16-word block into the running state. -/
def processBlock (st : HState) (block : List Nat) : HState :=
  let ws := extendSchedule block
  let t := (K.zip ws).foldl round st
  ⟨(st.a + t.a) % 2 ^ 32, (st.b + t.b) % 2 ^ 32, (st.c + t.c) % 2 ^ 32,
   (st.d + t.d) % 2 ^ 32, (st.e + t.e) % 2 ^ 32, (st.f + t.f) % 2 ^ 32,
   (st.g + t.g) % 2 ^ 32, (st.hh + t.hh) % 2 ^ 32⟩

/-- Big-endian bytes of a 32-bit word. -/
def wordBytes (w : Nat) : List Nat :=
  [(w >>> 24) % 256, (w >>> 16) % 256, (w >>> 8) % 256, w % 256]

/-- The 32 digest bytes of a byte message. -/
def sha256Bytes (msg : List Nat) : List Nat :=
  let st := (blocks (toWords (pad msg))).foldl processBlock initState
  wordBytes st.a ++ wordBytes st.b ++ wordBytes st.c ++ wordBytes st.d
    ++ wordBytes st.e ++ wordBytes st.f ++ wordBytes st.g ++ wordBytes st.hh

def hexChar (n : Nat) : Char := "0123456789abcdef".toList.getD n '0'

def byteHex (b : Nat) : String := String.mk [hexChar (b / 16), hexChar (b % 16)]

/-- Lowercase hex digest of a byte message, as Python `hexdigest()`. -/
def hexdigest (msg : List Nat) : String := String.join ((sha256Bytes msg).map byteHex)

/-- UTF-8 bytes of a string, as Python `str.encode()`. -/
def utf8Bytes (s : String) : List Nat := s.toUTF8.toList.map (fun b => b.toNat)

/-- Python `sha256(s.encode()).hexdigest()`. -/
def sha256_hexdigest (s : String) : String := hexdigest (utf8Bytes s)

end SHA256

namespace MnsHtmlScraperStrategy

/-- The extracted-fields mapping the hypertext strategy's `extract` builds
(src/Strategies/MnsHtmlScraperStrategy.py, lines 328-350) and that
`normalize` consumes.  All keys that `normalize` reads are present; the
`str(...)` coercions of `normalize` are identities on these fields because
the model types them as strings. -/
structure Extracted where
  page_title : String
  description : String
  main_content : String
  raw_text : String
  links : List String
  images : List String
  tables : List (List (List String))
  extracted_fields : List (String × String)
deriving Repr, DecidableEq

/-- The `_generate_entity_id` helper (lines 365-376): the first 16 hex
characters of the SHA-256 of `page_title + main_content`. -/
def _generate_entity_id (extracted : Extracted) : String :=
  (SHA256.sha256_hexdigest (extracted.page_title ++ extracted.main_content)).take 16

/-- The `metadata` sub-mapping `normalize` builds (lines 421-429). -/
structure Normalized_Metadata where
  links_count : Nat
  images_count : Nat
  tables_count : Nat
  text_length : Nat
  links : List String
  images : List String
  tables : List (List (List String))
deriving Repr, DecidableEq

/-- The normalized record `normalize` returns (lines 412-431), with the
nested `data` mapping flattened into `data_*` fields. -/
structure Normalized where
  entity_type : String
  entity_id : String
  timestamp : String
  data_page_title : String
  data_description : String
  data_main_content : String
  data_extracted_fields : List (String × String)
  metadata : Normalized_Metadata
deriving Repr, DecidableEq

/-- The `normalize` method (lines 378-432).  `_normalize_validate_extracted`
only rejects non-dict input, which the typed model excludes; `now` is the
wall-clock ISO timestamp `datetime.now(timezone.utc).isoformat()`. -/
def normalize (extracted : Extracted) (now : String) : Normalized :=
  ⟨"mns_page", _generate_entity_id extracted, now,
    extracted.page_title, extracted.description, extracted.main_content,
    extracted.extracted_fields,
    ⟨extracted.links.length, extracted.images.length, extracted.tables.length,
     extracted.raw_text.length, extracted.links.take 10, extracted.images.take 10,
     extracted.tables⟩⟩

end MnsHtmlScraperStrategy

/-! Concrete fixtures (mock strategies and loggers in the style of the
repository's unit tests) and helper lemmas about the traces of `_get_data`
and `run`. -/

/-- A logger providing all three operations, none of which ever raises. -/
def good_logger : Crawly_Logger := ⟨true, true, true, none, none, none⟩

/-- A logger all of whose operations raise a `RuntimeError` on every call. -/
def failing_logger : Crawly_Logger :=
  ⟨true, true, true, some (.other "RuntimeError" "logger boom"),
   some (.other "RuntimeError" "logger boom"), some (.other "RuntimeError" "logger boom")⟩

/-- An orchestrator with the given `max_attempts` and `backoff_base_seconds`
and a working logger. -/
def orch (M : Int) (b : ℚ) : Scraper_Orchestrator := ⟨M, b, some good_logger⟩

/-- A strategy whose every fetch raises `Scraper_Exception(msg, code)` and
whose `should_retry` always approves. -/
def all_fail_strategy (msg : String) (code : Int) : Scraper_Strategy Unit Unit Unit :=
  ⟨"mock", fun _ _ => .error (.scraper ⟨msg, code⟩), fun _ => .ok (), fun _ => .ok (),
   fun _ _ => true⟩

/-- A strategy whose every fetch raises `Scraper_Exception(msg, code)` and
whose `should_retry` always refuses. -/
def no_retry_strategy (msg : String) (code : Int) : Scraper_Strategy Unit Unit Unit :=
  ⟨"mock", fun _ _ => .error (.scraper ⟨msg, code⟩), fun _ => .ok (), fun _ => .ok (),
   fun _ _ => false⟩

/-- A strategy whose fetch always reports success with the fixed payload
`v`, with arbitrary extract/normalize behaviour. -/
def fixed_fetch_strategy {E N : Type} (v : Option String)
    (ext : String → Except PyExc E) (norm : E → Except PyExc N) :
    Scraper_Strategy Unit E N :=
  ⟨"mock", fun _ _ => .ok v, ext, norm, fun _ _ => true⟩

/-- A strategy for which the whole pipeline succeeds. -/
def ok_strategy : Scraper_Strategy Unit Unit Unit :=
  fixed_fetch_strategy (some "payload") (fun _ => .ok ()) (fun _ => .ok ())

/-- A strategy whose first fetch raises `Scraper_Exception("boom", 503)` and
whose second fetch succeeds, approving every retry. -/
def fail_once_strategy : Scraper_Strategy Unit Unit Unit :=
  ⟨"mock", fun _ k => if k = 0 then .error (.scraper ⟨"boom", 503⟩) else .ok (some "payload"),
   fun _ => .ok (), fun _ => .ok (), fun _ _ => true⟩

lemma get_data_try_fetch_le {Ctx E N : Type} (o : Scraper_Orchestrator)
    (s : Scraper_Strategy Ctx E N) (ctx : Ctx) (a : Nat) :
    (_get_data_try o s ctx a).2 ≤ 1 := by
  unfold _get_data_try
  rcases log_debug_strict o with _ | e
  · rcases s.fetch ctx a with e | r
    · simp
    · rcases log_info_strict o with _ | e <;> simp
  · simp

/-- With a working logger, a fetch that reports success is returned as-is
after exactly one fetch call and no sleep. -/
lemma get_data_fetch_ok {Ctx E N : Type} (s : Scraper_Strategy Ctx E N)
    (M : Int) (b : ℚ) (ctx : Ctx) (a : Nat) (v : Option String)
    (hf : s.fetch ctx a = .ok v) :
    _get_data (orch M b) s ctx a = ⟨.ok v, 1, []⟩ := by
  rw [_get_data]
  simp [_get_data_try, log_debug_strict, log_info_strict, orch, good_logger, hf]

/-- With a working logger and a strategy refusing every retry, a failing
fetch is tried exactly once, one sleep of `b * 2 ^ (a + 1)` happens, and the
terminal exception is raised. -/
lemma get_data_no_retry (msg : String) (code : Int) (M : Int) (b : ℚ) (a : Nat) :
    _get_data (orch M b) (no_retry_strategy msg code) () a =
      ⟨.error (.scraper ⟨no_retry_message ⟨msg, code⟩ (a + 1), 500⟩), 1, [b * 2 ^ (a + 1)]⟩ := by
  rw [_get_data]
  simp [_get_data_try, log_debug_strict, log_info_strict, log_error_strict, orch,
    good_logger, no_retry_strategy]

/-- Closed form of `_get_data` for an always-failing, always-retrying
strategy under a working logger, from any starting counter `a`: exactly
`max 1 (M - a)` fetch calls, one sleep of `b * 2 ^ (a + k)` after the k-th
failure (1-based), and the terminal exception carrying the final counter. -/
lemma get_data_all_fail (msg : String) (code : Int) (M : Int) (b : ℚ) (a : Nat) :
    _get_data (orch M b) (all_fail_strategy msg code) () a =
      ⟨.error (.scraper ⟨no_retry_message ⟨msg, code⟩ (a + max 1 (M - a).toNat), 500⟩),
       max 1 (M - a).toNat,
       (List.range (max 1 (M - a).toNat)).map (fun k => b * 2 ^ (a + k + 1))⟩ := by
  rw [_get_data]
  simp only [_get_data_try, log_debug_strict, log_info_strict, log_error_strict, orch,
    good_logger, all_fail_strategy, Bool.true_and, if_true]
  by_cases hM : (a : Int) + 1 < M
  · rw [dif_pos (by simpa using hM)]
    have ih := get_data_all_fail msg code M b (a + 1)
    simp only [orch, good_logger, all_fail_strategy] at ih
    rw [ih]
    simp only [Fetch_Trace.mk.injEq]
    refine ⟨?_, by push_cast; omega, ?_⟩
    · congr 4
      push_cast
      omega
    · have h3 : max 1 (M - (a : Int)).toNat = max 1 (M - ((a : Nat) + 1 : Nat)).toNat + 1 := by
        push_cast; omega
      rw [h3, List.range_succ_eq_map]
      simp only [List.map_cons, List.map_map, List.cons.injEq]
      refine ⟨by norm_num, ?_⟩
      apply List.map_congr_left
      intro k _
      have hk : a + 1 + k + 1 = a + (k + 1) + 1 := by omega
      simp [Function.comp_apply, hk]
  · rw [dif_neg (by simpa using hM)]
    have h1 : max 1 (M - (a : Int)).toNat = 1 := by omega
    rw [h1]
    norm_num [List.range_succ]
termination_by (M - a).toNat
decreasing_by push_cast; omega

/-- Attempt-ceiling bound for arbitrary strategies, contexts, loggers and
(integer) `max_attempts`: from counter `a`, `_get_data` performs at most
`max 1 (max_attempts - a)` fetch calls. -/
lemma get_data_fetch_calls_le {Ctx E N : Type} (o : Scraper_Orchestrator)
    (s : Scraper_Strategy Ctx E N) (ctx : Ctx) (a : Nat) :
    (_get_data o s ctx a).fetch_calls ≤ max 1 (o._max_attempts - a).toNat := by
  have htry := get_data_try_fetch_le o s ctx a
  rw [_get_data]
  split
  · next response n h =>
    rw [h] at htry; simp only at htry
    simp
    omega
  · next t m n h =>
    rw [h] at htry; simp only at htry
    simp
    omega
  · next err n h =>
    rw [h] at htry; simp only at htry
    cases hle : log_error_strict o with
    | some e2 =>
      simp [hle]
      omega
    | none =>
      simp only [hle]
      by_cases hcond : s.should_retry err (a + 1) && decide ((a : Int) + 1 < o._max_attempts)
      · rw [dif_pos hcond]
        have ih := get_data_fetch_calls_le o s ctx (a + 1)
        simp only [Bool.and_eq_true, decide_eq_true_eq] at hcond
        simp only []
        push_cast at ih ⊢
        omega
      · rw [dif_neg hcond]
        simp
        omega
termination_by (o._max_attempts - a).toNat
decreasing_by
  simp only [Bool.and_eq_true, decide_eq_true_eq] at hcond
  push_cast
  omega

/-- When `_get_data` raises a `Scraper_Exception`, `run` catches and
discards it, then raises `UnboundLocalError` at `if data is None`. -/
lemma run_of_scraper {Ctx E N : Type} (o : Scraper_Orchestrator)
    (s : Scraper_Strategy Ctx E N) (ctx : Ctx) (err : Scraper_Exception)
    (n : Nat) (sl : List ℚ)
    (h : _get_data o s ctx 0 = ⟨.error (.scraper err), n, sl⟩) :
    run o s ctx = ⟨.error data_unbound_error, n, sl, 0, 0⟩ := by
  unfold run
  rw [h]

/-- Any non-`Scraper_Exception` raised inside `_get_data` escapes `run`
unwrapped. -/
lemma run_of_other {Ctx E N : Type} (o : Scraper_Orchestrator)
    (s : Scraper_Strategy Ctx E N) (ctx : Ctx) (t m : String)
    (n : Nat) (sl : List ℚ)
    (h : _get_data o s ctx 0 = ⟨.error (.other t m), n, sl⟩) :
    run o s ctx = ⟨.error (.other t m), n, sl, 0, 0⟩ := by
  unfold run
  rw [h]

/-- A `None` payload makes `run` raise `NameError` at line 184 without
calling extract or normalize. -/
lemma run_of_none {Ctx E N : Type} (o : Scraper_Orchestrator)
    (s : Scraper_Strategy Ctx E N) (ctx : Ctx) (n : Nat) (sl : List ℚ)
    (h : _get_data o s ctx 0 = ⟨.ok none, n, sl⟩) :
    run o s ctx = ⟨.error attempts_name_error, n, sl, 0, 0⟩ := by
  unfold run
  rw [h]

/-- A non-`None` payload is passed to extract, and every continuation ends
in the `NameError` on the undefined local `attempts`. -/
lemma run_of_some {Ctx E N : Type} (o : Scraper_Orchestrator)
    (s : Scraper_Strategy Ctx E N) (ctx : Ctx) (d : String) (n : Nat) (sl : List ℚ)
    (h : _get_data o s ctx 0 = ⟨.ok (some d), n, sl⟩) :
    run o s ctx = match s.extract d with
      | .error _ => ⟨.error attempts_name_error, n, sl, 1, 0⟩
      | .ok extracted =>
        match s.normalize extracted with
        | .error _ => ⟨.error attempts_name_error, n, sl, 1, 1⟩
        | .ok _ => ⟨.error attempts_name_error, n, sl, 1, 1⟩ := by
  unfold run
  rw [h]

/-- With no logger configured, the strict `__log_debug` raises before fetch
is ever called, and the strict `__log_error` inside the handler raises a
fresh `Scraper_Exception` out of `_get_data`. -/
lemma get_data_no_logger {Ctx E N : Type} (M : Int) (b : ℚ)
    (s : Scraper_Strategy Ctx E N) (ctx : Ctx) (a : Nat) :
    _get_data (⟨M, b, none⟩ : Scraper_Orchestrator) s ctx a =
      ⟨.error (.scraper ⟨"Logger is not properly configured for error logging.", 500⟩), 0, []⟩ := by
  rw [_get_data]
  simp [_get_data_try, log_debug_strict, log_error_strict]

/-- With a logger whose `debug` raises a non-`Scraper_Exception`, that
exception propagates out of `_get_data` before fetch is ever called. -/
lemma get_data_failing_logger {Ctx E N : Type} (M : Int) (b : ℚ)
    (s : Scraper_Strategy Ctx E N) (ctx : Ctx) (a : Nat) :
    _get_data (⟨M, b, some failing_logger⟩ : Scraper_Orchestrator) s ctx a =
      ⟨.error (.other "RuntimeError" "logger boom"), 0, []⟩ := by
  rw [_get_data]
  simp [_get_data_try, log_debug_strict, failing_logger]

/-- The fail-once strategy: one failure, one sleep of `b * 2`, then a
successful second fetch. -/
lemma get_data_fail_once (M : Int) (b : ℚ) (hM : 1 < M) :
    _get_data (orch M b) fail_once_strategy () 0 =
      ⟨.ok (some "payload"), 2, [b * 2]⟩ := by
  have h1 : _get_data (orch M b) fail_once_strategy () 1 = ⟨.ok (some "payload"), 1, []⟩ :=
    get_data_fetch_ok fail_once_strategy M b () 1 (some "payload") rfl
  rw [_get_data]
  simp only [_get_data_try, log_debug_strict, log_info_strict, log_error_strict, orch,
    good_logger, fail_once_strategy, Bool.true_and, if_true]
  rw [dif_pos (by simpa using hM)]
  simp only [orch, good_logger, fail_once_strategy] at h1
  rw [h1]
  norm_num

/-- Claim C1 (code bug): the spec says `run` always returns a Response
Envelope and never lets an exception past its boundary; in the code, every
path of `run` instead raises an exception (the undefined local `attempts`
when building any response, the unbound local `data` after a caught fetch
failure, or a propagated non-`Scraper_Exception`), for every context and
strategy — `run` never returns an envelope. -/
theorem C1_run_never_returns_envelope {Ctx E N : Type} (o : Scraper_Orchestrator)
    (s : Scraper_Strategy Ctx E N) (ctx : Ctx) :
    ∃ e : PyExc, (run o s ctx).result = .error e := by
  rcases hgd : _get_data o s ctx 0 with ⟨r, n, sl⟩
  rcases r with e | d
  · rcases e with err | ⟨t, m⟩
    · exact ⟨_, by rw [run_of_scraper o s ctx err n sl hgd]⟩
    · exact ⟨_, by rw [run_of_other o s ctx t m n sl hgd]⟩
  · rcases d with _ | d
    · exact ⟨_, by rw [run_of_none o s ctx n sl hgd]⟩
    · rw [run_of_some o s ctx d n sl hgd]
      refine ⟨attempts_name_error, ?_⟩
      rcases s.extract d with e | ex
      · simp
      · rcases hn : s.normalize ex with e | nr <;> simp [hn]

/-- Claim C2 (code bug): for a strategy always failing with a retryable code
whose `should_retry` always approves, and any positive `max_attempts = M`,
the orchestrator does invoke `fetch` exactly M times — but `run` then
raises `UnboundLocalError` on its unassigned local `data` instead of
returning an error envelope. -/
theorem C2_retry_ceiling_no_envelope (M : Int) (b : ℚ) (hM : 1 ≤ M) :
    (run (orch M b) (all_fail_strategy "boom" 503) ()).fetch_calls = M.toNat ∧
    (run (orch M b) (all_fail_strategy "boom" 503) ()).result = .error data_unbound_error := by
  have hg := get_data_all_fail "boom" 503 M b 0
  rw [run_of_scraper _ _ _ _ _ _ hg]
  constructor
  · show max 1 (M - ((0 : Nat) : Int)).toNat = M.toNat
    push_cast
    omega
  · rfl

/-- Witness for C2 at `max_attempts = 2`, `backoff_base = 1`. -/
theorem C2_retry_ceiling_no_envelope_witness :
    (1 ≤ (2 : Int)) ∧
    ((run (orch 2 1) (all_fail_strategy "boom" 503) ()).fetch_calls = (2 : Int).toNat ∧
     (run (orch 2 1) (all_fail_strategy "boom" 503) ()).result = .error data_unbound_error) :=
  ⟨by norm_num, C2_retry_ceiling_no_envelope 2 1 (by norm_num)⟩

/-- Claim C3 (code bug): the spec says exactly one of `data`/`error` is
non-null in every returned envelope, but `_error_response` invoked with a
`None` exception — exactly how the fetch-failure path of `run` invokes it,
since `last_error` is always `None` there — builds an envelope whose `data`
and `error` fields are both null. -/
theorem C3_error_response_both_null :
    (_error_response Unit "mock" "now" "FETCH_ERROR" none 3).data = none ∧
    (_error_response Unit "mock" "now" "FETCH_ERROR" none 3).error = none :=
  ⟨rfl, rfl⟩

/-- Claim C4 counterexample: with `backoff_base = 1` and a single fetch
failure followed by success, the recorded wait is `1 * 2 ^ 1 = 2`
time-units, not the claimed `backoff_base * 2 ^ (attempt_counter - 1) = 1`. -/
theorem C4_backoff_exponent_counterexample :
    (run (orch 3 1) fail_once_strategy ()).sleeps = [(2 : ℚ)] ∧
    (2 : ℚ) ≠ 1 * 2 ^ ((1 : Nat) - 1) := by
  have hg := get_data_fail_once 3 1 (by norm_num)
  constructor
  · rw [run_of_some _ _ _ _ _ _ hg]
    simp [fail_once_strategy]
  · norm_num

/-- Claim C4 as amended: the wait after the k-th failed attempt (1-based
attempt counter k) is `backoff_base * 2 ^ k` — the code computes the delay
after incrementing the counter, so the wait after the first failure equals
`2 * backoff_base`; shown on the always-failing strategy where every wait
in the recorded sleep sequence is exhibited. -/
theorem C4_backoff_formula (M : Int) (b : ℚ) (hM : 1 ≤ M) :
    (run (orch M b) (all_fail_strategy "boom" 503) ()).sleeps =
      (List.range M.toNat).map (fun k => b * 2 ^ (k + 1)) := by
  have hg := get_data_all_fail "boom" 503 M b 0
  rw [run_of_scraper _ _ _ _ _ _ hg]
  have h1 : max 1 (M - ((0 : Nat) : Int)).toNat = M.toNat := by push_cast; omega
  rw [h1]
  simp

/-- Witness for C4 at `max_attempts = 3`, `backoff_base = 1`. -/
theorem C4_backoff_formula_witness :
    (1 ≤ (3 : Int)) ∧
    (run (orch 3 1) (all_fail_strategy "boom" 503) ()).sleeps =
      (List.range (3 : Int).toNat).map (fun k => (1 : ℚ) * 2 ^ (k + 1)) :=
  ⟨by norm_num, C4_backoff_formula 3 1 (by norm_num)⟩

/-- Claim C5 counterexample: with `should_retry` refusing the first failure
(code 404), `fetch` is indeed invoked exactly once, but a backoff sleep DOES
occur — the code sleeps before consulting the retry decision — refuting the
claimed "no backoff wait (sleep) occurs". -/
theorem C5_sleep_counterexample :
    (run (orch 5 1) (no_retry_strategy "not found" 404) ()).fetch_calls = 1 ∧
    (run (orch 5 1) (no_retry_strategy "not found" 404) ()).sleeps ≠ [] := by
  have hg := get_data_no_retry "not found" 404 5 1 0
  rw [run_of_scraper _ _ _ _ _ _ hg]
  simp

/-- Claim C5 as amended: for every strategy whose `should_retry` refuses
the first failure, the failing fetch is invoked exactly once and exactly
one backoff sleep of `backoff_base * 2` occurs before the fetch-stage
failure is signalled (and `run`, by its unbound-local bug, raises
`UnboundLocalError` rather than returning an error envelope). -/
theorem C5_non_retryable_one_fetch_one_sleep (msg : String) (code M : Int) (b : ℚ) :
    (run (orch M b) (no_retry_strategy msg code) ()).fetch_calls = 1 ∧
    (run (orch M b) (no_retry_strategy msg code) ()).sleeps = [b * 2] ∧
    (run (orch M b) (no_retry_strategy msg code) ()).result = .error data_unbound_error := by
  have hg := get_data_no_retry msg code M b 0
  rw [run_of_scraper _ _ _ _ _ _ hg]
  norm_num

/-- Claim C6 counterexample: a fetch reporting success with an EMPTY (but
non-null) payload is not treated as a fetch-stage validation failure —
`extract` and `normalize` are both invoked on it, refuting "extract and
normalize are never called". -/
theorem C6_empty_payload_counterexample :
    (run (orch 3 1) (fixed_fetch_strategy (some "")
      (fun _ => .ok ()) (fun _ => .ok (() : Unit))) ()).extract_calls ≠ 0 ∧
    (run (orch 3 1) (fixed_fetch_strategy (some "")
      (fun _ => .ok ()) (fun _ => .ok (() : Unit))) ()).normalize_calls ≠ 0 := by
  have hg : _get_data (orch 3 1) (fixed_fetch_strategy (some "")
      (fun _ => .ok ()) (fun _ => .ok (() : Unit))) () 0 = ⟨.ok (some ""), 1, []⟩ :=
    get_data_fetch_ok _ 3 1 () 0 (some "") rfl
  rw [run_of_some _ _ _ _ _ _ hg]
  simp [fixed_fetch_strategy]

/-- Claim C6 as amended: only a NULL (`None`) payload short-circuits the
pipeline before extraction — `extract`/`normalize` are then never called
and `run` signals a fetch-stage failure (raising `NameError` on the
undefined `attempts` instead of returning an error envelope) — while an
empty string payload is passed on to `extract`. -/
theorem C6_null_payload_short_circuit {E N : Type} (ext : String → Except PyExc E)
    (norm : E → Except PyExc N) (M : Int) (b : ℚ) :
    (run (orch M b) (fixed_fetch_strategy none ext norm) ()).extract_calls = 0 ∧
    (run (orch M b) (fixed_fetch_strategy none ext norm) ()).normalize_calls = 0 ∧
    (run (orch M b) (fixed_fetch_strategy none ext norm) ()).result = .error attempts_name_error ∧
    (run (orch M b) (fixed_fetch_strategy (some "") ext norm) ()).extract_calls = 1 := by
  have hg0 : _get_data (orch M b) (fixed_fetch_strategy none ext norm) () 0 = ⟨.ok none, 1, []⟩ :=
    get_data_fetch_ok _ M b () 0 none rfl
  have hg1 : _get_data (orch M b) (fixed_fetch_strategy (some "") ext norm) () 0
      = ⟨.ok (some ""), 1, []⟩ :=
    get_data_fetch_ok _ M b () 0 (some "") rfl
  rw [run_of_none _ _ _ _ _ hg0, run_of_some _ _ _ _ _ _ hg1]
  refine ⟨rfl, rfl, rfl, ?_⟩
  rcases hx : ext "" with e | ex
  · simp [fixed_fetch_strategy, hx]
  · rcases hn : norm ex with e | nr <;> simp [fixed_fetch_strategy, hx, hn]

/-- Claim C7 (code bug): logger presence or failure DOES change the
pipeline outcome, contrary to the claim.  For the same always-succeeding
strategy: with a working logger `fetch` is called once (and `run` dies on
its `attempts` NameError); with no logger the strict `__log_debug` raises
before `fetch` is ever called (zero fetch calls) and `run` dies on the
unbound `data`; with a logger whose `debug` raises a `RuntimeError`, that
`RuntimeError` escapes `run` unwrapped, aborting the pipeline. -/
theorem C7_logger_changes_outcome :
    (run (orch 3 1) ok_strategy ()).fetch_calls = 1 ∧
    (run (⟨3, 1, none⟩ : Scraper_Orchestrator) ok_strategy ()).fetch_calls = 0 ∧
    (run (⟨3, 1, some failing_logger⟩ : Scraper_Orchestrator) ok_strategy ()).result
      = .error (.other "RuntimeError" "logger boom") ∧
    (run (orch 3 1) ok_strategy ()).result
      ≠ (run (⟨3, 1, none⟩ : Scraper_Orchestrator) ok_strategy ()).result := by
  have hgood : _get_data (orch 3 1) ok_strategy () 0 = ⟨.ok (some "payload"), 1, []⟩ :=
    get_data_fetch_ok _ 3 1 () 0 (some "payload") rfl
  have hnone := get_data_no_logger 3 1 ok_strategy () 0
  have hfail := get_data_failing_logger 3 1 ok_strategy () 0
  rw [run_of_some _ _ _ _ _ _ hgood, run_of_scraper _ _ _ _ _ _ hnone,
    run_of_other _ _ _ _ _ _ _ hfail]
  simp [ok_strategy, fixed_fetch_strategy, attempts_name_error, data_unbound_error]

/-- Claim C8: the default `should_retry` of the strategy contract returns
true if and only if the 1-based attempt number is strictly below 3, for
every error value whatsoever. -/
theorem C8_default_should_retry (e : PyExc) (attempt : Int) :
    should_retry_default e attempt = true ↔ attempt < 3 := by
  simp [should_retry_default]

/-- Claim C9: the hypertext strategy's `normalize` derives `entity_id`
deterministically from the extracted content: any two extracted mappings
agreeing on the hashed content (`page_title` and `main_content` — in
particular, identical mappings) receive the same content-hash-derived
`entity_id`, independently of the normalization timestamp. -/
theorem C9_entity_id_deterministic (e1 e2 : MnsHtmlScraperStrategy.Extracted)
    (now1 now2 : String)
    (h1 : e1.page_title = e2.page_title) (h2 : e1.main_content = e2.main_content) :
    (MnsHtmlScraperStrategy.normalize e1 now1).entity_id
      = (MnsHtmlScraperStrategy.normalize e2 now2).entity_id := by
  simp [MnsHtmlScraperStrategy.normalize, MnsHtmlScraperStrategy._generate_entity_id, h1, h2]

/-- Witness for C9 on two concrete extracted mappings sharing title and
content but differing elsewhere, normalized at different timestamps. -/
theorem C9_entity_id_deterministic_witness :
    ((⟨"t", "d1", "m", "r1", [], [], [], []⟩ : MnsHtmlScraperStrategy.Extracted).page_title
        = (⟨"t", "d2", "m", "r2", ["l"], [], [], []⟩ : MnsHtmlScraperStrategy.Extracted).page_title) ∧
    ((⟨"t", "d1", "m", "r1", [], [], [], []⟩ : MnsHtmlScraperStrategy.Extracted).main_content
        = (⟨"t", "d2", "m", "r2", ["l"], [], [], []⟩ : MnsHtmlScraperStrategy.Extracted).main_content) ∧
    (MnsHtmlScraperStrategy.normalize ⟨"t", "d1", "m", "r1", [], [], [], []⟩ "2025-01-01").entity_id
      = (MnsHtmlScraperStrategy.normalize ⟨"t", "d2", "m", "r2", ["l"], [], [], []⟩ "2025-06-30").entity_id :=
  ⟨rfl, rfl, C9_entity_id_deterministic _ _ _ _ rfl rfl⟩

/-- Claim C10: for every strategy, context, logger and integer
`max_attempts`, the recursive `_get_data` terminates (it is a total
function, defined by well-founded recursion on `max_attempts - attempts`,
exactly the measure the recursion decreases) and performs at most
`max 1 max_attempts` fetch calls. -/
theorem C10_get_data_attempt_bound {Ctx E N : Type} (o : Scraper_Orchestrator)
    (s : Scraper_Strategy Ctx E N) (ctx : Ctx) :
    (_get_data o s ctx 0).fetch_calls ≤ (max 1 o._max_attempts).toNat := by
  have h := get_data_fetch_calls_le o s ctx 0
  push_cast at h
  omega

end Crawly
